import Mathlib

/-!
Shallow embedding of the gugto data-collection scripts
(common.py, notsold.py, population_report.py, real_estate_report.py,
monthly_price_index.py) and proofs about the claims of its specification.

Conventions of the embedding:
* Parsed JSON bodies are modelled by the inductive `JVal`.
* Python runtime exceptions are modelled by `PyErr`; a function that can
  raise returns `Except PyErr _`, and a pagination loop that can let an
  exception escape records it in `FetchResult.err`.
* A pagination server is a finite list of responses; past the end of the
  list the server is taken to answer every further request with an empty
  result, which is what terminates the `while True` loops of the source.
* Machine integers of the source are Python's unbounded integers, so they
  are embedded as `Nat`/`Int` directly; Python's floor division and
  modulus on a positive divisor are `/` and `%` on `Int` (Euclidean).
-/

/-- Python runtime error classes that the scripts can raise. -/
inductive PyErr where
  | httpError (code : Nat)
  | typeError
  | indexError
  | valueError
  | lookupError
  | keyError
  | envError
deriving DecidableEq

/-- Parsed JSON values as returned by `response.json()`. -/
inductive JVal where
  | null
  | jbool (b : Bool)
  | num (n : Int)
  | str (s : String)
  | arr (xs : List JVal)
  | obj (fs : List (String × JVal))

/-- Python truthiness of a JSON value (the `if not x` tests of the source). -/
def JVal.truthy : JVal → Bool
  | .null => false
  | .jbool b => b
  | .num n => n != 0
  | .str s => s != ""
  | .arr xs => !xs.isEmpty
  | .obj fs => !fs.isEmpty

/-- What `accumulator.extend (v)` appends: iterating a list yields its
elements, iterating a dict yields its keys, iterating a string yields its
one-character substrings; other values are not iterable (TypeError). -/
def pyIter : JVal → Option (List JVal)
  | .arr xs => some xs
  | .obj fs => some (fs.map (fun f => JVal.str f.1))
  | .str s => some (s.toList.map (fun c => JVal.str (String.mk [c])))
  | _ => none

/-- Python `len` on a JSON value; `none` is a TypeError. -/
def pyLen : JVal → Option Nat
  | .arr xs => some xs.length
  | .obj fs => some fs.length
  | .str s => some s.toList.length
  | _ => none

/-- `dict.get (k, d)` on the fields of a JSON object. -/
def jGetD (fs : List (String × JVal)) (k : String) (d : JVal) : JVal :=
  match fs.lookup k with
  | some v => v
  | none => d

/-- One HTTP response in a pagination sequence: status code and parsed
JSON body. -/
structure RawPage where
  status : Nat
  data : JVal

/-- Outcome of a pagination loop: accumulated items, number of HTTP
requests issued, and the Python exception that escaped the loop, if any.
When `err` is `some e` the loop stopped at that request; `items` records
what had been accumulated up to the failing request. -/
structure FetchResult where
  items : List JVal
  requests : Nat
  err : Option PyErr

/-- `requests.Response.raise_for_status`: raises `HTTPError` exactly for
the 4xx and 5xx status codes. -/
def raiseForStatus (code : Nat) : Except PyErr Unit :=
  if 400 ≤ code ∧ code < 600 then .error (.httpError code) else .ok ()

/-- `common.fetch_json_list` pagination loop (common.py lines 24-43):
request page, raise for status, take `data.get (list_key) or []`, break
when that is falsy, otherwise extend the accumulator and continue with the
next page.  There is no short-page termination check. -/
def jsonLoop (listKey : String) : List RawPage → FetchResult
  | [] => ⟨[], 1, none⟩
  | p :: rest =>
    match raiseForStatus p.status with
    | .error e => ⟨[], 1, some e⟩
    | .ok _ =>
      match p.data with
      | .obj fs =>
        let recs := jGetD fs listKey .null
        if recs.truthy then
          match pyIter recs with
          | some xs =>
            let r := jsonLoop listKey rest
            ⟨xs ++ r.items, r.requests + 1, r.err⟩
          | none => ⟨[], 1, some .typeError⟩
        else ⟨[], 1, none⟩
      | _ => ⟨[], 1, some .typeError⟩

/-- `notsold.fetch_form_list` pagination loop (notsold.py lines 10-30):
request page, raise for status, take
`data.get ("result_data", \x7b\x7d).get (list_key, [])`, break when that is
falsy, extend, and also break when the page holds fewer than the requested
1000 rows. -/
def formLoop (listKey : String) : List RawPage → FetchResult
  | [] => ⟨[], 1, none⟩
  | p :: rest =>
    match raiseForStatus p.status with
    | .error e => ⟨[], 1, some e⟩
    | .ok _ =>
      match p.data with
      | .obj fs =>
        match jGetD fs "result_data" (.obj []) with
        | .obj fs2 =>
          let items := jGetD fs2 listKey (.arr [])
          if items.truthy then
            match pyIter items, pyLen items with
            | some xs, some n =>
              if n < 1000 then ⟨xs, 1, none⟩
              else
                let r := formLoop listKey rest
                ⟨xs ++ r.items, r.requests + 1, r.err⟩
            | _, _ => ⟨[], 1, some .typeError⟩
          else ⟨[], 1, none⟩
        | _ => ⟨[], 1, some .typeError⟩
      | _ => ⟨[], 1, some .typeError⟩

/-- `head.get ('resultCode') != '0'` is false exactly when the value is
the string "0". -/
def resultCodeZero (head : List (String × JVal)) : Bool :=
  match jGetD head "resultCode" .null with
  | .str c => c == "0"
  | _ => false

/-- `population_report.fetch_page` (population_report.py lines 102-125):
single page fetch; raises for status, returns `[]` unless the result code
is "0", extracts `Response.items.item`, returns `[]` when that is falsy,
and coerces a bare object into a one-element list. -/
def fetch_page (status : Nat) (data : JVal) : Except PyErr (List JVal) :=
  match raiseForStatus status with
  | .error e => .error e
  | .ok _ =>
    match data with
    | .obj js =>
      match jGetD js "Response" (.obj []) with
      | .obj resp =>
        match jGetD resp "head" (.obj []) with
        | .obj head =>
          if resultCodeZero head then
            match jGetD resp "items" (.obj []) with
            | .obj its =>
              let items := jGetD its "item" (.arr [])
              if items.truthy then
                match items with
                | .arr xs => .ok xs
                | v => .ok [v]
              else .ok []
            | _ => .error .typeError
          else .ok []
        | _ => .error .typeError
      | _ => .error .typeError
    | _ => .error .typeError

/-- `population_report` collection inner loop (lines 149-157): repeat
`fetch_page` with increasing page number until a page is empty; an
exception from `fetch_page` escapes the loop. -/
def popPageLoop : List RawPage → FetchResult
  | [] => ⟨[], 1, none⟩
  | p :: rest =>
    match fetch_page p.status p.data with
    | .error e => ⟨[], 1, some e⟩
    | .ok [] => ⟨[], 1, none⟩
    | .ok xs =>
      let r := popPageLoop rest
      ⟨xs ++ r.items, r.requests + 1, r.err⟩

/-- One XML response of the real-estate endpoints: status code and the
item records parsed by `pd.read_xml` (`none` when parsing fails). -/
structure XmlPage where
  status : Nat
  parsed : Option (List JVal)

/-- `real_estate_report.fetch_items` (real_estate_report.py lines 73-85):
the try/except around the request turns any HTTP or status error into
`[]`, and an XML parse failure also yields `[]`; no exception escapes. -/
def fetch_items (p : XmlPage) : List JVal :=
  match raiseForStatus p.status with
  | .error _ => []
  | .ok _ =>
    match p.parsed with
    | none => []
    | some rs => rs

/-- `real_estate_report.collect_all` inner month loop (lines 97-148):
call `fetch_items` with increasing pageNo until it returns no records.
Returns the records of the month and the number of requests issued. -/
def monthLoop : List XmlPage → List JVal × Nat
  | [] => ([], 1)
  | p :: rest =>
    match fetch_items p with
    | [] => ([], 1)
    | recs =>
      let r := monthLoop rest
      (recs ++ r.1, r.2 + 1)

/-- `real_estate_report.collect_all` over its month range: concatenation
of all month results and the total request count. -/
def collect_all (months : List (List XmlPage)) : List JVal × Nat :=
  months.foldl (fun acc ms => (acc.1 ++ (monthLoop ms).1, acc.2 + (monthLoop ms).2)) ([], 0)

/-- A page whose body has the shape `common.fetch_json_list` reads:
status 200 and the item list stored under the list key. -/
def jsonPage (listKey : String) (xs : List JVal) : RawPage :=
  ⟨200, .obj [(listKey, .arr xs)]⟩

/-- A page whose body has the shape `notsold.fetch_form_list` reads: the
item list nested under result_data and the list key. -/
def formPage (listKey : String) (xs : List JVal) : RawPage :=
  ⟨200, .obj [("result_data", .obj [(listKey, .arr xs)])]⟩

/-- Python `str.split ()` with no separator: split on runs of whitespace,
dropping empty pieces. -/
def pySplitAux : List Char → List Char → List String
  | [], acc => if acc.isEmpty then [] else [String.mk acc.reverse]
  | c :: cs, acc =>
    if c.isWhitespace then
      if acc.isEmpty then pySplitAux cs []
      else String.mk acc.reverse :: pySplitAux cs []
    else pySplitAux cs (c :: acc)

/-- Python `str.split ()` on a string. -/
def pySplit (s : String) : List String := pySplitAux s.toList []

/-- Python `str.strip ()`: drop leading and trailing whitespace. -/
def pyStrip (s : String) : String :=
  String.mk (((s.toList.dropWhile Char.isWhitespace).reverse.dropWhile Char.isWhitespace).reverse)

/-- Python `s.startswith (pre)`, on character lists (prefix first). -/
def strStarts : List Char → List Char → Bool
  | [], _ => true
  | _ :: _, [] => false
  | a :: as, b :: bs => a == b && strStarts as bs

/-- Python `s[a:b]` for a nonnegative slice. -/
def pySlice (s : String) (a b : Nat) : String :=
  String.mk ((s.toList.drop a).take (b - a))

/-- The host numeric parser (`int ()`, `float ()`, `pd.to_numeric`)
restricted to the class of inputs the scripts feed it: it accepts exactly
the nonempty strings of decimal digits and rejects everything else, in
particular the empty string and any string containing a thousands
separator.  The parsed values here are integral, so the float results of
the source are embedded as `Nat`. -/
def parseNum (s : String) : Option Nat :=
  if !s.toList.isEmpty && s.toList.all Char.isDigit then
    some (s.toList.foldl (fun a c => a * 10 + (c.toNat - 48)) 0)
  else none

/-- `str.replace (",", "")` as applied by `real_estate_report.collect_all`
before casting to float. -/
def strip_commas (s : String) : String :=
  String.mk (s.toList.filter (fun c => c != ','))

/-- The numeric cleanup of `real_estate_report.collect_all` (lines
121-146): `.astype (str).str.replace (",", "", regex=False).astype (float)`.
`astype (float)` raises ValueError on a string it cannot parse, such as
the empty string. -/
def collectAllClean (s : String) : Except PyErr Nat :=
  match parseNum (strip_commas s) with
  | some v => .ok v
  | none => .error .valueError

/-- `pd.to_numeric (x, errors="coerce")` as used by
`population_report` (lines 164-171) and `monthly_price_index` (line 143):
unparseable values become the missing-value marker NaN, embedded as
`none`; no separator stripping is applied first. -/
def to_numeric_coerce (s : String) : Option Nat := parseNum s

/-- Linearization of a (year, month) pair into a month count, used to
state properties of the 3-month windows: `linIdx y m = y * 12 + (m - 1)`. -/
def linIdx (y m : Int) : Int := y * 12 + (m - 1)

/-- Python tuple comparison `(a1, a2) <= (b1, b2)`. -/
def lexLe (a b : Int × Int) : Prop := a.1 < b.1 ∨ (a.1 = b.1 ∧ a.2 ≤ b.2)

/-- Python tuple comparison `(a1, a2) < (b1, b2)`. -/
def lexLt (a b : Int × Int) : Prop := a.1 < b.1 ∨ (a.1 = b.1 ∧ a.2 < b.2)

instance (a b : Int × Int) : Decidable (lexLe a b) := by
  unfold lexLe; infer_instance

instance (a b : Int × Int) : Decidable (lexLt a b) := by
  unfold lexLt; infer_instance

/-- The while-loop of `population_report.split_to_quarters`
(population_report.py lines 128-143), on (year, month) pairs.  `fuel`
bounds the number of iterations; every iteration advances the current
month by at least one, so any fuel larger than the linear month distance
from start to end makes this agree with the unbounded source loop.
Python's floor division and modulus by 12 are `/` and `%` on `Int`, which
are Euclidean and agree with Python on the positive divisor 12. -/
def splitGo (ye me : Int) : Nat → Int → Int → List ((Int × Int) × (Int × Int))
  | 0, _, _ => []
  | fuel + 1, cy, cm =>
    if lexLe (cy, cm) (ye, me) then
      let total : Int := cy * 12 + (cm - 1) + 2
      let ey0 : Int := total / 12
      let em0 : Int := total % 12 + 1
      let p : Int × Int := if lexLt (ye, me) (ey0, em0) then (ye, me) else (ey0, em0)
      let nxt : Int := p.1 * 12 + (p.2 - 1) + 1
      ((cy, cm), p) :: splitGo ye me fuel (nxt / 12) (nxt % 12 + 1)
    else []

/-- `to_ym` of `split_to_quarters`: `(int (s[:4]), int (s[4:6]))`;
`none` when `int ()` would raise. -/
def to_ym (s : String) : Option (Int × Int) :=
  match parseNum (pySlice s 0 4), parseNum (pySlice s 4 6) with
  | some y, some m => some ((y : Int), (m : Int))
  | _, _ => none

/-- `to_str` of `split_to_quarters`: the f-string `"{y}{m:02d}"`. -/
def to_str (y m : Int) : String :=
  toString y ++ (if 0 ≤ m ∧ m < 10 then "0" ++ toString m else toString m)

/-- `population_report.split_to_quarters` on YYYYMM strings; `none` when
the month parsing of the source would raise.  The fuel passed to the loop
strictly exceeds the month distance from start to end, which bounds the
number of iterations of the source loop. -/
def split_to_quarters (start stop : String) : Option (List (String × String)) :=
  match to_ym start, to_ym stop with
  | some (y0, m0), some (ye, me) =>
    some ((splitGo ye me (linIdx ye me - linIdx y0 m0 + 2).toNat y0 m0).map
      (fun w => (to_str w.1.1 w.1.2, to_str w.2.1 w.2.2)))
  | _, _ => none

/-- The windows, read as inclusive intervals of linear month indices,
tile the range lo..hi exactly: the first starts at lo, each next window
starts right after the previous one ends (no gaps, no overlaps), every
window spans at most 3 months, and the last ends exactly at hi. -/
def windowsCover (lo hi : Int) : List (Int × Int) → Prop
  | [] => lo = hi + 1
  | w :: ws => w.1 = lo ∧ lo ≤ w.2 ∧ w.2 ≤ lo + 2 ∧ w.2 ≤ hi ∧ windowsCover (w.2 + 1) hi ws

/-- One row of the code_raw.csv reference table, loaded with string dtype:
province name, city name and district name (pandas NaN is `none`), and the
10-digit administrative code. -/
structure CodeRow where
  sido : String
  sigungu : Option String
  emd : Option String
  code : String

/-- The csv_df row filter of `population_report.get_admmCd` for each
supported token arity (population_report.py lines 26-49); `none` encodes
the unsupported-arity else-branch that raises ValueError in the source. -/
def admmFilter (tb : List CodeRow) : List String → Option (List CodeRow)
  | [sido] =>
    some (tb.filter (fun r => r.sido == sido && r.sigungu == none && r.emd == none))
  | [sido, sig] =>
    some (tb.filter (fun r => r.sido == sido && r.sigungu == some sig && r.emd == none))
  | [sido, sig, emd] =>
    some (tb.filter (fun r => r.sido == sido && r.sigungu == some sig && r.emd == some emd))
  | _ => none

/-- The tail of `population_report.get_admmCd` after the filter
(lines 53-58): an empty filter result raises LookupError; then
`sub.iloc[0]["법정동코드"]` is checked to be exactly 10 characters,
raising ValueError otherwise. -/
def admmPost (sub : List CodeRow) : Except PyErr String :=
  match sub with
  | [] => .error .lookupError
  | r :: _ => if r.code.length ≠ 10 then .error .valueError else .ok r.code

/-- `population_report.get_admmCd` (lines 19-58).  `parts[0]` is taken
before the arity dispatch, so the empty input raises IndexError; an
unsupported arity raises ValueError; the rest is `admmPost` of the
filtered rows. -/
def get_admmCd (tb : List CodeRow) (region_name : String) : Except PyErr String :=
  match pySplit region_name with
  | [] => .error .indexError
  | parts =>
    match admmFilter tb parts with
    | none => .error .valueError
    | some sub => admmPost sub

/-- The csv_df row filter of `real_estate_report.get_region_code`
(real_estate_report.py lines 23-36): only 2- and 3-token inputs are
supported, and the 3-token branch concatenates city and district and puts
no condition on the district column. -/
def regionFilter (tb : List CodeRow) : List String → Option (List CodeRow)
  | [sido, sig] =>
    some (tb.filter (fun r => r.sido == sido && r.sigungu == some sig && r.emd == none))
  | [sido, city, gu] =>
    some (tb.filter (fun r => r.sido == sido && r.sigungu == some (city ++ gu)))
  | _ => none

/-- The tail of `real_estate_report.get_region_code` after the filter
(lines 39-41): LookupError when no row matches, else the first 5
characters of the first matching row's code. -/
def regionPost (sub : List CodeRow) : Except PyErr String :=
  match sub with
  | [] => .error .lookupError
  | r :: _ => .ok (pySlice r.code 0 5)

/-- `real_estate_report.get_region_code` (lines 20-41): IndexError on the
empty input (parts[0]), ValueError for any arity other than 2 or 3, the
rest is `regionPost` of the filtered rows. -/
def get_region_code (tb : List CodeRow) (region_name : String) : Except PyErr String :=
  match pySplit region_name with
  | [] => .error .indexError
  | parts =>
    match regionFilter tb parts with
    | none => .error .valueError
    | some sub => regionPost sub

/-- `common.split_region_name` (common.py lines 46-62): 1, 2 and >= 3
whitespace tokens are accepted (tokens beyond the third are silently
dropped); only the 0-token input reaches the else-branch and raises
ValueError.  No table is consulted, so it can never raise LookupError. -/
def split_region_name (region_name : String) :
    Except PyErr (String × Option String × Option String) :=
  match pySplit region_name with
  | [] => .error .valueError
  | [p] => .ok (p, none, none)
  | [p, c] => .ok (p, some c, none)
  | p :: c :: d :: _ => .ok (p, some c, some d)

/-- The `sido_map` dict of monthly_price_index.py (lines 22-40), in
insertion order. -/
def sido_map : List (String × String) :=
  [("서울특별시", "서울"), ("서울시", "서울"), ("서울", "서울"),
   ("부산광역시", "부산"), ("부산시", "부산"), ("부산", "부산"),
   ("대구광역시", "대구"), ("대구시", "대구"), ("대구", "대구"),
   ("인천광역시", "인천"), ("인천시", "인천"), ("인천", "인천"),
   ("광주광역시", "광주"), ("광주시", "광주"),
   ("대전광역시", "대전"), ("대전시", "대전"),
   ("울산광역시", "울산"), ("울산시", "울산"),
   ("세종특별자치시", "세종"), ("세종시", "세종"), ("세종", "세종"),
   ("경기도", "경기"), ("경기", "경기"),
   ("강원도", "강원"), ("강원", "강원"),
   ("충청북도", "충북"), ("충북", "충북"),
   ("충청남도", "충남"), ("충남", "충남"),
   ("전라북도", "전북"), ("전북", "전북"),
   ("전라남도", "전남"), ("전남", "전남"),
   ("경상북도", "경북"), ("경북", "경북"),
   ("경상남도", "경남"), ("경남", "경남"),
   ("제주특별자치도", "제주"), ("제주도", "제주"), ("제주", "제주")]

/-- `monthly_price_index.map_sido` (lines 41-47): exact dict hit first,
then the first key in insertion order that the input starts with, else
ValueError. -/
def map_sido (full_name : String) : Except PyErr String :=
  match sido_map.find? (fun kv => kv.1 == full_name) with
  | some kv => .ok kv.2
  | none =>
    match sido_map.find? (fun kv => strStarts kv.1.toList full_name.toList) with
    | some kv => .ok kv.2
    | none => .error .valueError

/-- `monthly_price_index.get_region_labels` (lines 50-61): the three fixed
labels, the abbreviated province, one compound label per second and third
token (tokens beyond the third are ignored), and "서울" inserted at
position 3 when not already present. -/
def get_region_labels (region_name : String) : Except PyErr (List String) :=
  match pySplit region_name with
  | [] => .error .indexError
  | sido_full :: rest =>
    match map_sido sido_full with
    | .error e => .error e
    | .ok sido =>
      let base := ["전국", "수도권", "지방권", sido]
      let labels :=
        match rest with
        | [] => base
        | [p1] => base ++ [sido ++ " " ++ p1]
        | p1 :: p2 :: _ => base ++ [sido ++ " " ++ p1, sido ++ " " ++ p1 ++ " " ++ p2]
      .ok (if "서울" ∈ labels then labels else labels.take 3 ++ "서울" :: labels.drop 3)

/-- The `PROVINCE_KEY_MAP` dict of notsold.py (lines 33-47), in insertion
order. -/
def PROVINCE_KEY_MAP : List (String × String) :=
  [("서울특별시", "서울"), ("서울", "서울"),
   ("부산광역시", "부산"), ("부산", "부산"),
   ("대구광역시", "대구"), ("대구", "대구"),
   ("인천광역시", "인천"), ("인천", "인천"),
   ("광주광역시", "광주"), ("광주", "광주"),
   ("대전광역시", "대전"), ("대전", "대전"),
   ("울산광역시", "울산"), ("울산", "울산"),
   ("세종특별자치시", "세종"), ("세종", "세종"),
   ("제주특별자치도", "제주"), ("제주", "제주"),
   ("경기도", "경기"), ("강원도", "강원"),
   ("충청북도", "충북"), ("충청남도", "충남"),
   ("전라북도", "전북"), ("전라남도", "전남"),
   ("경상북도", "경북"), ("경상남도", "경남")]

/-- `notsold.parse_region_name` (lines 49-55): strip, split, take
`PROVINCE_KEY_MAP.get (parts[0], parts[0])` (an unknown first token passes
through unchanged), and the optional second and third tokens.  Only the
empty or all-whitespace input raises (IndexError at `parts[0]`). -/
def parse_region_name (region_name : String) :
    Except PyErr (String × Option String × Option String) :=
  match pySplit (pyStrip region_name) with
  | [] => .error .indexError
  | p0 :: rest =>
    let pk := match PROVINCE_KEY_MAP.find? (fun kv => kv.1 == p0) with
      | some kv => kv.2
      | none => p0
    let ck : Option String := match rest with | [] => none | c :: _ => some c
    let dk : Option String := match rest with | _ :: d :: _ => some d | _ => none
    .ok (pk, ck, dk)

/-- One row of the notsold dataframes, restricted to the two columns the
region filter consults: 구분 (province key) and 시군구 (city). -/
structure NotsoldRow where
  gubun : String
  sigungu : String

/-- The province part of `notsold.filter_by_region` (lines 103-108): rows
whose 구분 equals the province key and whose 시군구 is the aggregate
marker "계". -/
def filter_prov (df : List NotsoldRow) (pk : String) : List NotsoldRow :=
  df.filter (fun r => r.gubun == pk && r.sigungu == "계")

/-- `os.getenv (k)` is None or the empty string: the `if not api_key`
configuration test of every script. -/
def envKeyMissing (env : String → Option String) (k : String) : Bool :=
  match env k with
  | none => true
  | some v => v == ""

/-- Observable outcome of one script invocation: the exit status
(`none` = the run reached its export stage, `some c` = the process
terminated with nonzero status `c`, by `sys.exit (1)` or by an uncaught
exception) and the number of HTTP requests issued. -/
structure Outcome where
  exitCode : Option Nat
  requests : Nat

/-- `common.fetch_json_list` including its API-key gate (common.py lines
15-18): report and `sys.exit (1)` before the first request when
MOLIT_STATS_KEY is unset or empty, else run the pagination loop. -/
def fetch_json_list_run (env : String → Option String) (listKey : String)
    (pages : List RawPage) : Outcome × List JVal :=
  if envKeyMissing env "MOLIT_STATS_KEY" then (⟨some 1, 0⟩, [])
  else
    let r := jsonLoop listKey pages
    (⟨match r.err with | some _ => some 1 | none => none, r.requests⟩, r.items)

/-- `notsold.main` (lines 111-148): after CLI parsing (no HTTP), the
missing MOLIT_STATS_KEY raises EnvironmentError (nonzero exit, no
request); then the region is parsed and the two form lists are fetched in
order; an exception escaping a fetch aborts the run with the requests made
so far.  The Excel export stage issues no requests. -/
def notsoldRun (env : String → Option String) (region_name : String)
    (monthlyPages completedPages : List RawPage) : Outcome :=
  if envKeyMissing env "MOLIT_STATS_KEY" then ⟨some 1, 0⟩
  else
    match parse_region_name region_name with
    | .error _ => ⟨some 1, 0⟩
    | .ok _ =>
      let r1 := formLoop "formList" monthlyPages
      match r1.err with
      | some _ => ⟨some 1, r1.requests⟩
      | none =>
        let r2 := formLoop "formList" completedPages
        match r2.err with
        | some _ => ⟨some 1, r1.requests + r2.requests⟩
        | none => ⟨none, r1.requests + r2.requests⟩

/-- `monthly_price_index` main flow: CSV load and CLI parsing issue no
HTTP request; the missing REB_API_KEY exits 1 before any request (lines
82-85); then each region label whose CLS_ID resolves in the code table
issues exactly one request (pIndex is fixed at 1, there is no pagination
loop), unresolved labels are skipped, and the script exits 1 when no label
resolved.  Per-request network or parse failures are logged and skipped
without changing the request count, so the success exit abstracts from the
response contents. -/
def monthlyRun (env : String → Option String) (codeTable : List (String × String))
    (region_name : String) : Outcome :=
  if envKeyMissing env "REB_API_KEY" then ⟨some 1, 0⟩
  else
    match get_region_labels region_name with
    | .error _ => ⟨some 1, 0⟩
    | .ok labels =>
      let n := (labels.filter (fun l => (codeTable.lookup l).isSome)).length
      ⟨if n = 0 then some 1 else none, n⟩

/-- The call-list construction of population_report (lines 72-91),
executed before the API-key check: lv=1 from the first token, lv=2 when at
least two tokens, lv=3 exactly when three tokens; `get_admmCd` errors
propagate uncaught. -/
def buildCalls (tb : List CodeRow) (region_name : String) :
    Except PyErr (List (Nat × String)) :=
  match pySplit region_name with
  | [] => .error .indexError
  | [sido] =>
    match get_admmCd tb sido with
    | .error e => .error e
    | .ok c1 => .ok [(1, c1)]
  | [sido, city] =>
    match get_admmCd tb sido with
    | .error e => .error e
    | .ok c1 =>
      match get_admmCd tb (sido ++ " " ++ city) with
      | .error e => .error e
      | .ok c2 => .ok [(1, c1), (2, c2)]
  | [sido, city, _] =>
    match get_admmCd tb sido with
    | .error e => .error e
    | .ok c1 =>
      match get_admmCd tb (sido ++ " " ++ city) with
      | .error e => .error e
      | .ok c2 =>
        match get_admmCd tb region_name with
        | .error e => .error e
        | .ok c3 => .ok [(1, c1), (2, c2), (3, c3)]
  | sido :: city :: _ :: _ :: _ =>
    match get_admmCd tb sido with
    | .error e => .error e
    | .ok c1 =>
      match get_admmCd tb (sido ++ " " ++ city) with
      | .error e => .error e
      | .ok c2 => .ok [(1, c1), (2, c2)]

/-- Sequential accumulation of the per-window pagination results of
population_report's collection loop, stopping at the first escaped
exception: total requests and the escaped error, if any. -/
def runSubs : List FetchResult → Nat × Option PyErr
  | [] => (0, none)
  | r :: rs =>
    match r.err with
    | some e => (r.requests, some e)
    | none =>
      let t := runSubs rs
      (r.requests + t.1, t.2)

/-- The population_report script flow relevant to configuration errors:
CSV load, CLI parsing and the call-list construction (which can raise)
issue no HTTP request; the missing PUBLIC_DATA_API_KEY exits 1 before any
request (lines 94-97); then every (call, quarter window) pair runs the
page loop against the server. -/
def populationRun (env : String → Option String) (tb : List CodeRow)
    (region_name start stop : String)
    (server : Nat → String → String → String → List RawPage) : Outcome :=
  match buildCalls tb region_name with
  | .error _ => ⟨some 1, 0⟩
  | .ok calls =>
    if envKeyMissing env "PUBLIC_DATA_API_KEY" then ⟨some 1, 0⟩
    else
      match split_to_quarters start stop with
      | none => ⟨some 1, 0⟩
      | some qs =>
        let subs := (calls.map (fun c => qs.map (fun q =>
          popPageLoop (server c.1 c.2 q.1 q.2)))).flatten
        let t := runSubs subs
        ⟨match t.2 with | some _ => some 1 | none => none, t.1⟩

/-- The real_estate_report script flow relevant to configuration errors:
CSV load and CLI parsing issue no HTTP request; the region code is
resolved first (lines 52-60, failures are caught and exit 1); the missing
PUBLIC_DATA_API_KEY exits 1 before any request (lines 63-66); then the
three collect_all passes run against their month servers. -/
def realEstateRun (env : String → Option String) (tb : List CodeRow)
    (lawd_cd : Option String) (region_name : String)
    (saleMonths rentMonths silvMonths : List (List XmlPage)) : Outcome :=
  let rc : Except PyErr String :=
    match lawd_cd with
    | some c => .ok c
    | none => get_region_code tb region_name
  match rc with
  | .error _ => ⟨some 1, 0⟩
  | .ok _ =>
    if envKeyMissing env "PUBLIC_DATA_API_KEY" then ⟨some 1, 0⟩
    else
      ⟨none, (collect_all saleMonths).2 + (collect_all rentMonths).2 +
        (collect_all silvMonths).2⟩

/-- An in-memory table: named columns and rows of cells. -/
structure PDataFrame (α : Type) where
  columns : List String
  rows : List (List α)

/-- One spreadsheet sheet: a header row and the data cells below it.
Cells are `Sum Nat α` so that a written row-index label (a `Sum.inl`) is
distinguishable from a data cell (a `Sum.inr`). -/
structure XSheet (α : Type) where
  header : List String
  cells : List (List (Sum Nat α))

/-- `DataFrame.to_excel (writer, sheet_name, index)` as called by the
ExcelWriter blocks (monthly_price_index.py lines 179-181,
real_estate_report.py lines 165-169, always with `index=False`): the
header row is the column list and the cells are the rows; with
`index=True` pandas would prepend an unnamed index column. -/
def to_excel (df : PDataFrame α) (index : Bool) : XSheet α :=
  if index then
    ⟨"" :: df.columns, df.rows.enum.map (fun p => Sum.inl p.1 :: p.2.map Sum.inr)⟩
  else
    ⟨df.columns, df.rows.map (fun r => r.map Sum.inr)⟩

/-- Modelled from the spec: `pandas.read_excel` reading one sheet back
into a table, ignoring spreadsheet-specific type coercion — the repository
contains no reader, so the round-trip direction follows the spec's
description of reading a sheet: the header row becomes the column list and
the cell rows become the data rows. -/
def read_excel (sh : XSheet α) : PDataFrame (Sum Nat α) :=
  ⟨sh.header, sh.cells⟩

/-- The response body under which `fetch_page` reaches its item payload:
result code "0" and the payload stored at `Response.items.item`. -/
def popResponse (payload : JVal) : JVal :=
  .obj [("Response", .obj [("head", .obj [("resultCode", .str "0")]),
                           ("items", .obj [("item", payload)])])]

theorem jsonLoop_nil (k : String) : jsonLoop k [] = ⟨[], 1, none⟩ := rfl

theorem formLoop_nil (k : String) : formLoop k [] = ⟨[], 1, none⟩ := rfl

theorem raiseForStatus_200 : raiseForStatus 200 = .ok () := rfl

theorem jsonLoop_cons_page (k : String) (xs : List JVal) (rest : List RawPage)
    (hx : xs ≠ []) :
    jsonLoop k (jsonPage k xs :: rest) =
      ⟨xs ++ (jsonLoop k rest).items, (jsonLoop k rest).requests + 1,
        (jsonLoop k rest).err⟩ := by
  cases xs with
  | nil => exact absurd rfl hx
  | cons a t =>
    simp [jsonLoop, jsonPage, raiseForStatus, jGetD, List.lookup, JVal.truthy, pyIter]

theorem formLoop_cons_page (k : String) (xs : List JVal) (rest : List RawPage)
    (hx : xs ≠ []) :
    formLoop k (formPage k xs :: rest) =
      if xs.length < 1000 then ⟨xs, 1, none⟩
      else ⟨xs ++ (formLoop k rest).items, (formLoop k rest).requests + 1,
        (formLoop k rest).err⟩ := by
  cases xs with
  | nil => exact absurd rfl hx
  | cons a t =>
    simp [formLoop, formPage, raiseForStatus, jGetD, List.lookup, JVal.truthy, pyIter, pyLen]

/-- C1 (corrected): for a server that answers with N full pages of the
requested page size 1000 followed by one page of k items, 0 < k < 1000
(and empty results afterwards), `notsold.fetch_form_list` returns exactly
N*1000+k items in exactly N+1 requests, as the claim states; but
`common.fetch_json_list`, which has no short-page termination check,
returns the same N*1000+k items in N+2 requests — it needs the following
empty page to stop. -/
theorem c1_pagination (k : String) (fulls : List (List JVal)) (short : List JVal)
    (hf : ∀ xs ∈ fulls, xs.length = 1000) (h1 : short ≠ [])
    (h2 : short.length < 1000) :
    formLoop k ((fulls.map (formPage k)) ++ [formPage k short]) =
      ⟨fulls.flatten ++ short, fulls.length + 1, none⟩ ∧
    jsonLoop k ((fulls.map (jsonPage k)) ++ [jsonPage k short]) =
      ⟨fulls.flatten ++ short, fulls.length + 2, none⟩ := by
  induction fulls with
  | nil =>
    constructor
    · rw [List.map_nil, List.nil_append, formLoop_cons_page k short [] h1, if_pos h2]
      simp
    · rw [List.map_nil, List.nil_append, jsonLoop_cons_page k short [] h1, jsonLoop_nil]
      simp
  | cons x fulls ih =>
    have hx : x.length = 1000 := hf x (List.mem_cons_self _ _)
    have hxne : x ≠ [] := by
      intro h
      rw [h] at hx
      simp at hx
    obtain ⟨ihf, ihj⟩ := ih (fun xs h => hf xs (List.mem_cons_of_mem _ h))
    constructor
    · rw [List.map_cons, List.cons_append, formLoop_cons_page k x _ hxne,
        if_neg (by omega), ihf]
      simp [List.append_assoc]
    · rw [List.map_cons, List.cons_append, jsonLoop_cons_page k x _ hxne, ihj]
      simp [List.append_assoc]

/-- Witness for C1 at N = 1, k = 1. -/
theorem c1_pagination_witness :
    formLoop "formList"
        (([List.replicate 1000 (JVal.num 0)].map (formPage "formList")) ++
          [formPage "formList" [JVal.num 1]]) =
      ⟨[List.replicate 1000 (JVal.num 0)].flatten ++ [JVal.num 1],
        [List.replicate 1000 (JVal.num 0)].length + 1, none⟩ ∧
    jsonLoop "formList"
        (([List.replicate 1000 (JVal.num 0)].map (jsonPage "formList")) ++
          [jsonPage "formList" [JVal.num 1]]) =
      ⟨[List.replicate 1000 (JVal.num 0)].flatten ++ [JVal.num 1],
        [List.replicate 1000 (JVal.num 0)].length + 2, none⟩ :=
  c1_pagination "formList" [List.replicate 1000 (JVal.num 0)] [JVal.num 1]
    (fun xs h => by rw [List.mem_singleton] at h; rw [h, List.length_replicate])
    (List.cons_ne_nil _ _)
    (by rw [List.length_singleton]; norm_num)

/-- C1, counterexample to the claim as stated: a server with N = 0 full
pages and one page of k = 1 < 1000 items.  The claim says
`common.fetch_json_list` issues N+1 = 1 request, but it issues 2: the
short page does not stop it, only the empty page after does. -/
theorem c1_counterexample :
    jsonLoop "formList" [jsonPage "formList" [JVal.num 7]] =
      ⟨[JVal.num 7], 2, none⟩ ∧ (2 : Nat) ≠ 0 + 1 := ⟨rfl, by decide⟩

/-- C3 (corrected): the numeric cleanup of the scripts.  The
comma-stripping variant of `real_estate_report.collect_all` maps "1,234"
to 1234.0 but raises ValueError on the empty string; the
`pd.to_numeric (errors="coerce")` variants of population_report and
monthly_price_index map the empty string to the missing marker NaN but
also map "1,234" to NaN, because they strip no thousands separators. -/
theorem c3_numeric_cleanup :
    collectAllClean "1,234" = .ok 1234 ∧
    collectAllClean "" = .error .valueError ∧
    to_numeric_coerce "" = none ∧
    to_numeric_coerce "1,234" = none := ⟨rfl, rfl, rfl, rfl⟩

/-- C3, counterexample to the claim as stated: the claim requires every
variant to map "1,234" to 1234.0 and "" to a missing marker without
raising; `collect_all`'s cleanup raises ValueError on "", and the
to_numeric variants turn "1,234" into NaN, not 1234.0. -/
theorem c3_counterexample :
    collectAllClean "" = .error .valueError ∧
    to_numeric_coerce "1,234" = none := ⟨rfl, rfl⟩

/-- C4 (corrected): only `population_report.fetch_page` coerces a bare
object into a one-element list; `common.fetch_json_list` and
`notsold.fetch_form_list` pass the dict to `list.extend`, which appends
the dict's keys — one item per key — instead of the record itself. -/
theorem c4_bare_object :
    (∀ fs : List (String × JVal), fs ≠ [] →
      fetch_page 200 (popResponse (.obj fs)) = .ok [.obj fs]) ∧
    (∀ (k : String) (fs : List (String × JVal)), fs ≠ [] →
      (jsonLoop k [⟨200, .obj [(k, .obj fs)]⟩]).items =
        fs.map (fun f => JVal.str f.1)) ∧
    (∀ (k : String) (fs : List (String × JVal)), fs ≠ [] → fs.length < 1000 →
      formLoop k [⟨200, .obj [("result_data", .obj [(k, .obj fs)])]⟩] =
        ⟨fs.map (fun f => JVal.str f.1), 1, none⟩) := by
  refine ⟨?_, ?_, ?_⟩
  · intro fs hfs
    cases fs with
    | nil => exact absurd rfl hfs
    | cons a t =>
      simp [fetch_page, popResponse, raiseForStatus, jGetD, List.lookup,
        resultCodeZero, JVal.truthy]
  · intro k fs hfs
    cases fs with
    | nil => exact absurd rfl hfs
    | cons a t =>
      simp [jsonLoop, raiseForStatus, jGetD, List.lookup, JVal.truthy, pyIter]
  · intro k fs hfs hlen
    cases fs with
    | nil => exact absurd rfl hfs
    | cons a t =>
      simp only [List.length_cons] at hlen
      simp [formLoop, raiseForStatus, jGetD, List.lookup, JVal.truthy, pyIter,
        pyLen, hlen]

/-- Witness for C4 at a one-field record. -/
theorem c4_bare_object_witness :
    fetch_page 200 (popResponse (.obj [("a", JVal.null)])) =
      .ok [.obj [("a", JVal.null)]] ∧
    (jsonLoop "formList" [⟨200, .obj [("formList", .obj [("a", JVal.null)])]⟩]).items =
      [JVal.str "a"] ∧
    formLoop "formList" [⟨200, .obj [("result_data", .obj [("formList", .obj [("a", JVal.null)])])]⟩] =
      ⟨[JVal.str "a"], 1, none⟩ :=
  ⟨c4_bare_object.1 [("a", JVal.null)] (List.cons_ne_nil _ _),
   c4_bare_object.2.1 "formList" [("a", JVal.null)] (List.cons_ne_nil _ _),
   c4_bare_object.2.2 "formList" [("a", JVal.null)] (List.cons_ne_nil _ _)
     (by rw [List.length_singleton]; norm_num)⟩

/-- C4, counterexample to the claim as stated: a page whose list value is
the bare object with the single field "a".  The claim says every fetcher
variant contributes the record as one item; `common.fetch_json_list`
instead contributes the key string "a", which is not the record. -/
theorem c4_counterexample :
    (jsonLoop "formList" [⟨200, JVal.obj [("formList", JVal.obj [("a", JVal.null)])]⟩]).items =
      [JVal.str "a"] ∧
    JVal.str "a" ≠ JVal.obj [("a", JVal.null)] :=
  ⟨rfl, fun h => JVal.noConfusion h⟩

/-- C5 (corrected): a 4xx/5xx response makes `common.fetch_json_list`,
`notsold.fetch_form_list` and `population_report`'s page loop raise
immediately — the HTTPError escapes after that single request and the
request is never retried, whatever further pages the server would have
answered; but `real_estate_report.fetch_items` catches the error and
returns the empty list, so nothing propagates to its caller (it is not
retried either: `collect_all`'s month loop just stops).  Statuses in the
3xx range do not raise anywhere, because `raise_for_status` only covers
400-599. -/
theorem c5_http_status :
    (∀ (k : String) (st : Nat) (d : JVal) (rest : List RawPage),
      400 ≤ st → st < 600 →
      jsonLoop k (⟨st, d⟩ :: rest) = ⟨[], 1, some (.httpError st)⟩) ∧
    (∀ (k : String) (st : Nat) (d : JVal) (rest : List RawPage),
      400 ≤ st → st < 600 →
      formLoop k (⟨st, d⟩ :: rest) = ⟨[], 1, some (.httpError st)⟩) ∧
    (∀ (st : Nat) (d : JVal) (rest : List RawPage), 400 ≤ st → st < 600 →
      popPageLoop (⟨st, d⟩ :: rest) = ⟨[], 1, some (.httpError st)⟩) ∧
    (∀ (st : Nat) (parsed : Option (List JVal)), 400 ≤ st → st < 600 →
      fetch_items ⟨st, parsed⟩ = []) := by
  have hrs : ∀ st : Nat, 400 ≤ st → st < 600 →
      raiseForStatus st = .error (.httpError st) := by
    intro st h1 h2
    unfold raiseForStatus
    rw [if_pos ⟨h1, h2⟩]
  refine ⟨?_, ?_, ?_, ?_⟩
  · intro k st d rest h1 h2
    simp [jsonLoop, hrs st h1 h2]
  · intro k st d rest h1 h2
    simp [formLoop, hrs st h1 h2]
  · intro st d rest h1 h2
    simp [popPageLoop, fetch_page, hrs st h1 h2]
  · intro st parsed h1 h2
    simp [fetch_items, hrs st h1 h2]

/-- Witness for C5 at status 404. -/
theorem c5_http_status_witness :
    jsonLoop "formList" [⟨404, JVal.null⟩] = ⟨[], 1, some (.httpError 404)⟩ ∧
    formLoop "formList" [⟨404, JVal.null⟩] = ⟨[], 1, some (.httpError 404)⟩ ∧
    popPageLoop [⟨404, JVal.null⟩] = ⟨[], 1, some (.httpError 404)⟩ ∧
    fetch_items ⟨404, none⟩ = [] :=
  ⟨c5_http_status.1 "formList" 404 JVal.null [] (by norm_num) (by norm_num),
   c5_http_status.2.1 "formList" 404 JVal.null [] (by norm_num) (by norm_num),
   c5_http_status.2.2.1 404 JVal.null [] (by norm_num) (by norm_num),
   c5_http_status.2.2.2 404 none (by norm_num) (by norm_num)⟩

/-- C5, counterexample to the claim as stated: a 500 response carrying one
parsed record.  The claim says the error propagates to the caller of every
fetch variant; `real_estate_report.fetch_items` instead returns normally
with the empty list, and `collect_all`'s month loop treats it as an empty
month, issuing that one request and raising nothing. -/
theorem c5_counterexample :
    fetch_items ⟨500, some [JVal.num 1]⟩ = [] ∧
    monthLoop [⟨500, some [JVal.num 1]⟩] = ([], 1) := ⟨rfl, rfl⟩

/-- C7 (confirmed): when the script's API-key environment variable is
unset or empty, every script reports the error and exits nonzero having
issued zero HTTP requests — `common.fetch_json_list` and `notsold.main`
gate on MOLIT_STATS_KEY, `monthly_price_index` on REB_API_KEY, and
`population_report` and `real_estate_report` on PUBLIC_DATA_API_KEY (in
the last two, region resolution runs before the key check, but it issues
no HTTP request and its failure also exits nonzero with zero requests). -/
theorem c7_key_gate (env : String → Option String)
    (h1 : envKeyMissing env "MOLIT_STATS_KEY" = true)
    (h2 : envKeyMissing env "REB_API_KEY" = true)
    (h3 : envKeyMissing env "PUBLIC_DATA_API_KEY" = true) :
    (∀ (listKey : String) (pages : List RawPage),
      fetch_json_list_run env listKey pages = (⟨some 1, 0⟩, [])) ∧
    (∀ (region_name : String) (mp cp : List RawPage),
      notsoldRun env region_name mp cp = ⟨some 1, 0⟩) ∧
    (∀ (ct : List (String × String)) (region_name : String),
      monthlyRun env ct region_name = ⟨some 1, 0⟩) ∧
    (∀ (tb : List CodeRow) (rn st en : String)
      (server : Nat → String → String → String → List RawPage),
      populationRun env tb rn st en server = ⟨some 1, 0⟩) ∧
    (∀ (tb : List CodeRow) (lc : Option String) (rn : String)
      (a b c : List (List XmlPage)),
      realEstateRun env tb lc rn a b c = ⟨some 1, 0⟩) := by
  refine ⟨?_, ?_, ?_, ?_, ?_⟩
  · intro lk pages
    simp [fetch_json_list_run, h1]
  · intro rn mp cp
    simp [notsoldRun, h1]
  · intro ct rn
    simp [monthlyRun, h2]
  · intro tb rn st en server
    unfold populationRun
    cases buildCalls tb rn with
    | error e => rfl
    | ok calls => simp [h3]
  · intro tb lc rn a b c
    unfold realEstateRun
    cases lc with
    | some c0 => simp [h3]
    | none =>
      cases get_region_code tb rn with
      | error e => rfl
      | ok c0 => simp [h3]

/-- Witness for C7 with an empty environment. -/
theorem c7_key_gate_witness :
    fetch_json_list_run (fun _ => none) "formList" [] = (⟨some 1, 0⟩, []) ∧
    notsoldRun (fun _ => none) "경기도" [] [] = ⟨some 1, 0⟩ ∧
    monthlyRun (fun _ => none) [] "경기도" = ⟨some 1, 0⟩ ∧
    populationRun (fun _ => none) [] "경기도" "202101" "202107"
      (fun _ _ _ _ => []) = ⟨some 1, 0⟩ ∧
    realEstateRun (fun _ => none) [] none "경기도 수원시" [] [] [] = ⟨some 1, 0⟩ := by
  obtain ⟨a, b, c, d, e⟩ := c7_key_gate (fun _ => none) rfl rfl rfl
  exact ⟨a "formList" [], b "경기도" [] [], c [] "경기도",
    d [] "경기도" "202101" "202107" (fun _ _ _ _ => []),
    e [] none "경기도 수원시" [] [] []⟩

/-- C8 (confirmed): writing a table to a sheet with `to_excel` as the
scripts call it (`index=False`) and reading the sheet back yields a table
with the same column list (same set and order, no extra row-index column),
the same row count, and the same cells up to the cell embedding. -/
theorem c8_roundtrip (α : Type) (df : PDataFrame α) :
    (read_excel (to_excel df false)).columns = df.columns ∧
    (read_excel (to_excel df false)).rows.length = df.rows.length ∧
    (read_excel (to_excel df false)).rows = df.rows.map (fun r => r.map Sum.inr) := by
  refine ⟨?_, ?_, ?_⟩
  · simp [to_excel, read_excel]
  · simp [to_excel, read_excel]
  · simp [to_excel, read_excel]

/-- C10 (confirmed): `notsold.parse_region_name` raises IndexError
exactly on the empty or all-whitespace input; any input with at least one
token returns a triple without raising, and a first token that is not a
key of PROVINCE_KEY_MAP passes through unchanged instead of causing a
lookup error — downstream, a province key matching no 구분 value just
yields an empty filtered table. -/
theorem c10_parse_region (s : String) :
    (pySplit (pyStrip s) = [] → parse_region_name s = .error .indexError) ∧
    (∀ p0 rest, pySplit (pyStrip s) = p0 :: rest →
      ∃ pk ck dk, parse_region_name s = .ok (pk, ck, dk) ∧
        (PROVINCE_KEY_MAP.find? (fun kv => kv.1 == p0) = none → pk = p0)) ∧
    (∀ (df : List NotsoldRow) (pk : String), (∀ r ∈ df, r.gubun ≠ pk) →
      filter_prov df pk = []) := by
  refine ⟨?_, ?_, ?_⟩
  · intro h
    unfold parse_region_name
    rw [h]
  · intro p0 rest h
    unfold parse_region_name
    rw [h]
    rcases hf : PROVINCE_KEY_MAP.find? (fun kv => kv.1 == p0) with _ | kv
    · rcases rest with _ | ⟨c, _ | ⟨d, rest3⟩⟩
      · exact ⟨p0, none, none, by simp only [hf], fun _ => rfl⟩
      · exact ⟨p0, some c, none, by simp only [hf], fun _ => rfl⟩
      · exact ⟨p0, some c, some d, by simp only [hf], fun _ => rfl⟩
    · rcases rest with _ | ⟨c, _ | ⟨d, rest3⟩⟩
      · exact ⟨kv.2, none, none, by simp only [hf],
          fun hnone => by rw [hf] at hnone; cases hnone⟩
      · exact ⟨kv.2, some c, none, by simp only [hf],
          fun hnone => by rw [hf] at hnone; cases hnone⟩
      · exact ⟨kv.2, some c, some d, by simp only [hf],
          fun hnone => by rw [hf] at hnone; cases hnone⟩
  · intro df pk h
    unfold filter_prov
    rw [List.filter_eq_nil_iff]
    intro r hr
    simp only [Bool.and_eq_true, beq_iff_eq, not_and]
    intro h1 _
    exact h r hr h1

/-- Witness for C10: the all-whitespace input raises IndexError, the
unknown province "외계도" passes through unchanged, and an unmatched
province key filters to the empty table. -/
theorem c10_parse_region_witness :
    parse_region_name " " = .error .indexError ∧
    (∃ pk ck dk, parse_region_name "외계도 수원시" = .ok (pk, ck, dk) ∧
      (PROVINCE_KEY_MAP.find? (fun kv => kv.1 == "외계도") = none → pk = "외계도")) ∧
    filter_prov [⟨"경기", "계"⟩] "외계" = [] :=
  ⟨(c10_parse_region " ").1 rfl,
   (c10_parse_region "외계도 수원시").2.1 "외계도" ["수원시"] (by decide),
   (c10_parse_region "외계도 수원시").2.2 [⟨"경기", "계"⟩] "외계"
     (by intro r hr; rw [List.mem_singleton] at hr; rw [hr]; decide)⟩

theorem map_sido_value_mem (f v : String) (h : map_sido f = .ok v) :
    v ∈ sido_map.map Prod.snd := by
  unfold map_sido at h
  rcases hf : sido_map.find? (fun kv => kv.1 == f) with _ | kv
  · rw [hf] at h
    rcases hg : sido_map.find? (fun kv => strStarts kv.1.toList f.toList) with _ | kv2
    · rw [hg] at h
      cases h
    · rw [hg] at h
      cases h
      exact List.mem_map_of_mem _ (List.mem_of_find?_eq_some hg)
  · rw [hf] at h
    cases h
    exact List.mem_map_of_mem _ (List.mem_of_find?_eq_some hf)

theorem sido_map_values_len : ∀ v ∈ sido_map.map Prod.snd, v.length = 2 := by
  decide

theorem map_sido_len (f v : String) (h : map_sido f = .ok v) : v.length = 2 :=
  sido_map_values_len v (map_sido_value_mem f v h)

/-- C9 (corrected): when the first token of the input resolves through
`map_sido`, `get_region_labels` returns a list whose first three elements
are 전국, 수도권, 지방권, whose element at position 3 is always 서울
(already there when the province is Seoul, inserted there otherwise), that
contains the abbreviated province name, and whose length is 4 plus one per
additional input token counted only up to the third token (tokens beyond
the third are ignored) plus one when the province is not Seoul — so always
between 4 and 7, but not 4 plus one per additional token for inputs of
more than three tokens. -/
theorem c9_region_labels (region_name sido_full : String) (rest : List String)
    (sido : String)
    (hsplit : pySplit region_name = sido_full :: rest)
    (hmap : map_sido sido_full = .ok sido) :
    ∃ labels, get_region_labels region_name = .ok labels ∧
      labels.take 3 = ["전국", "수도권", "지방권"] ∧
      labels[3]? = some "서울" ∧
      sido ∈ labels ∧
      labels.length = 4 + min rest.length 2 +
        (if sido = "서울" then 0 else 1) := by
  have hlen : sido.length = 2 := map_sido_len _ _ hmap
  have hcomp : ∀ t : String, ¬("서울" = sido ++ " " ++ t) := by
    intro t h
    have hl := congrArg String.length h
    rw [String.length_append, String.length_append, hlen] at hl
    have : ("서울" : String).length = 2 := by decide
    rw [this] at hl
    have : (" " : String).length = 1 := by decide
    rw [this] at hl
    omega
  unfold get_region_labels
  rw [hsplit]
  simp only [hmap]
  by_cases hs : sido = "서울"
  · subst hs
    rcases rest with _ | ⟨p1, _ | ⟨p2, rest3⟩⟩
    · refine ⟨["전국", "수도권", "지방권", "서울"], ?_, rfl, rfl, ?_, ?_⟩
      · rw [if_pos (by decide)]
      · decide
      · decide
    · refine ⟨["전국", "수도권", "지방권", "서울", "서울" ++ " " ++ p1],
        ?_, rfl, rfl, ?_, ?_⟩
      · rw [if_pos (by simp)]
        rfl
      · simp
      · simp
    · refine ⟨["전국", "수도권", "지방권", "서울", "서울" ++ " " ++ p1,
        "서울" ++ " " ++ p1 ++ " " ++ p2], ?_, rfl, rfl, ?_, ?_⟩
      · rw [if_pos (by simp)]
        rfl
      · simp
      · simp
  · have hs' : ¬(("서울" : String) = sido) := fun h => hs h.symm
    rcases rest with _ | ⟨p1, _ | ⟨p2, rest3⟩⟩
    · have hnotin : ("서울" : String) ∉ (["전국", "수도권", "지방권", sido] : List String) := by
        intro hm
        simp only [List.mem_cons, List.not_mem_nil, or_false] at hm
        rcases hm with h | h | h | h
        · exact absurd h (by decide)
        · exact absurd h (by decide)
        · exact absurd h (by decide)
        · exact hs' h
      refine ⟨["전국", "수도권", "지방권", "서울", sido], ?_, rfl, rfl, ?_, ?_⟩
      · rw [if_neg hnotin]
        rfl
      · simp
      · simp [hs]
    · have hnotin : ("서울" : String) ∉
          (["전국", "수도권", "지방권", sido] ++ [sido ++ " " ++ p1] : List String) := by
        intro hm
        simp only [List.mem_append, List.mem_cons, List.not_mem_nil, or_false,
          List.mem_singleton] at hm
        rcases hm with (h | h | h | h) | h
        · exact absurd h (by decide)
        · exact absurd h (by decide)
        · exact absurd h (by decide)
        · exact hs' h
        · exact hcomp p1 h
      refine ⟨["전국", "수도권", "지방권", "서울", sido, sido ++ " " ++ p1],
        ?_, rfl, rfl, ?_, ?_⟩
      · rw [if_neg hnotin]
        rfl
      · simp
      · simp [hs]
    · have hnotin : ("서울" : String) ∉
          (["전국", "수도권", "지방권", sido] ++
            [sido ++ " " ++ p1, sido ++ " " ++ p1 ++ " " ++ p2] : List String) := by
        intro hm
        simp only [List.mem_append, List.mem_cons, List.not_mem_nil, or_false,
          List.mem_singleton] at hm
        rcases hm with (h | h | h | h) | h | h
        · exact absurd h (by decide)
        · exact absurd h (by decide)
        · exact absurd h (by decide)
        · exact hs' h
        · exact hcomp p1 h
        · exact hcomp (p1 ++ " " ++ p2) (by rw [h]; simp [String.append_assoc])
      refine ⟨["전국", "수도권", "지방권", "서울", sido, sido ++ " " ++ p1,
        sido ++ " " ++ p1 ++ " " ++ p2], ?_, rfl, rfl, ?_, ?_⟩
      · rw [if_neg hnotin]
        rfl
      · simp
      · simp [hs]

/-- Witness for C9 at the single-token input "경기도". -/
theorem c9_region_labels_witness :
    ∃ labels, get_region_labels "경기도" = .ok labels ∧
      labels.take 3 = ["전국", "수도권", "지방권"] ∧
      labels[3]? = some "서울" ∧
      "경기" ∈ labels ∧
      labels.length = 4 + min ([] : List String).length 2 +
        (if "경기" = "서울" then 0 else 1) :=
  c9_region_labels "경기도" "경기도" [] "경기" (by decide) rfl

/-- C9, counterexample to the claim as stated: the four-token input
"서울 a b c" resolves (province Seoul), has three additional tokens, and
the claim's length formula 4 + 3 + 0 = 7 does not match the actual label
count 6, because tokens beyond the third are ignored. -/
theorem c9_counterexample :
    get_region_labels "서울 a b c" =
      .ok ["전국", "수도권", "지방권", "서울", "서울 a", "서울 a b"] ∧
    ((["전국", "수도권", "지방권", "서울", "서울 a", "서울 a b"] : List String).length
      = 6 ∧ (6 : Nat) ≠ 4 + 3 + 0) := ⟨rfl, rfl, by decide⟩

theorem admmPost_eq_lookup (sub : List CodeRow) :
    admmPost sub = .error .lookupError ↔ sub = [] := by
  cases sub with
  | nil => simp [admmPost]
  | cons r rs =>
    simp only [admmPost]
    constructor
    · intro h
      by_cases hc : r.code.length ≠ 10
      · rw [if_pos hc] at h
        simp at h
      · rw [if_neg hc] at h
        simp at h
    · intro h
      simp at h

theorem regionPost_eq_lookup (sub : List CodeRow) :
    regionPost sub = .error .lookupError ↔ sub = [] := by
  cases sub with
  | nil => simp [regionPost]
  | cons r rs => simp [regionPost]

/-- C6 (corrected): the error behaviour of the three resolver variants.
`get_admmCd` raises IndexError (not ValueError) for the 0-token input,
ValueError for 4 or more tokens, LookupError exactly when a 1-3-token
input matches no row, and for an in-range input with a match it raises
ValueError exactly when the first matching row's code is not 10 characters
long.  `get_region_code` raises IndexError for 0 tokens, ValueError
exactly for 1 or >= 4 tokens — so the in-range 1-token input does raise
ValueError — and LookupError exactly when a 2-3-token input matches no
row.  `split_region_name` raises ValueError only for the 0-token input,
silently truncates more than 3 tokens to the first three instead of
raising, and never raises LookupError. -/
theorem c6_resolver_errors (tb : List CodeRow) (s : String) :
    (pySplit s = [] →
      get_admmCd tb s = .error .indexError ∧
      get_region_code tb s = .error .indexError ∧
      split_region_name s = .error .valueError) ∧
    (4 ≤ (pySplit s).length →
      get_admmCd tb s = .error .valueError ∧
      get_region_code tb s = .error .valueError ∧
      ∃ t, split_region_name s = .ok t) ∧
    ((pySplit s).length = 1 → get_region_code tb s = .error .valueError) ∧
    (1 ≤ (pySplit s).length → (pySplit s).length ≤ 3 →
      ((get_admmCd tb s = .error .lookupError ↔
          admmFilter tb (pySplit s) = some []) ∧
        (∀ r rs, admmFilter tb (pySplit s) = some (r :: rs) →
          get_admmCd tb s =
            if r.code.length ≠ 10 then .error .valueError else .ok r.code))) ∧
    ((pySplit s).length = 2 ∨ (pySplit s).length = 3 →
      (get_region_code tb s = .error .lookupError ↔
        regionFilter tb (pySplit s) = some [])) ∧
    (1 ≤ (pySplit s).length → ∃ t, split_region_name s = .ok t) ∧
    split_region_name s ≠ .error .lookupError := by
  rcases h : pySplit s with _ | ⟨a, _ | ⟨b, _ | ⟨c, _ | ⟨d, l⟩⟩⟩⟩
  · refine ⟨fun _ => ⟨?_, ?_, ?_⟩, ?_, ?_, ?_, ?_, ?_, ?_⟩
    · simp [get_admmCd, h]
    · simp [get_region_code, h]
    · simp [split_region_name, h]
    · intro hb
      simp at hb
    · intro hc
      simp at hc
    · intro h1 _
      simp at h1
    · intro he
      simp at he
    · intro h1
      simp at h1
    · simp [split_region_name, h]
  · have hg : get_admmCd tb s =
        admmPost (tb.filter (fun r => r.sido == a && r.sigungu == none && r.emd == none)) := by
      simp [get_admmCd, h, admmFilter]
    refine ⟨?_, ?_, ?_, ?_, ?_, ?_, ?_⟩
    · intro ha
      simp at ha
    · intro hb
      simp at hb
    · intro _
      simp [get_region_code, h, regionFilter]
    · intro _ _
      constructor
      · rw [hg, admmPost_eq_lookup]
        simp [admmFilter]
      · intro r rs hr
        simp only [admmFilter, Option.some_inj] at hr
        rw [hg, hr]
        rfl
    · intro he
      simp at he
    · intro _
      exact ⟨(a, none, none), by simp [split_region_name, h]⟩
    · simp [split_region_name, h]
  · have hg : get_admmCd tb s =
        admmPost (tb.filter (fun r => r.sido == a && r.sigungu == some b && r.emd == none)) := by
      simp [get_admmCd, h, admmFilter]
    refine ⟨?_, ?_, ?_, ?_, ?_, ?_, ?_⟩
    · intro ha
      simp at ha
    · intro hb
      simp at hb
    · intro hc
      simp at hc
    · intro _ _
      constructor
      · rw [hg, admmPost_eq_lookup]
        simp [admmFilter]
      · intro r rs hr
        simp only [admmFilter, Option.some_inj] at hr
        rw [hg, hr]
        rfl
    · intro _
      have hgr : get_region_code tb s =
          regionPost (tb.filter (fun r => r.sido == a && r.sigungu == some b && r.emd == none)) := by
        simp [get_region_code, h, regionFilter]
      rw [hgr, regionPost_eq_lookup]
      simp [regionFilter]
    · intro _
      exact ⟨(a, some b, none), by simp [split_region_name, h]⟩
    · simp [split_region_name, h]
  · have hg : get_admmCd tb s =
        admmPost (tb.filter (fun r => r.sido == a && r.sigungu == some b && r.emd == some c)) := by
      simp [get_admmCd, h, admmFilter]
    refine ⟨?_, ?_, ?_, ?_, ?_, ?_, ?_⟩
    · intro ha
      simp at ha
    · intro hb
      simp at hb
    · intro hc
      simp at hc
    · intro _ _
      constructor
      · rw [hg, admmPost_eq_lookup]
        simp [admmFilter]
      · intro r rs hr
        simp only [admmFilter, Option.some_inj] at hr
        rw [hg, hr]
        rfl
    · intro _
      have hgr : get_region_code tb s =
          regionPost (tb.filter (fun r => r.sido == a && r.sigungu == some (b ++ c))) := by
        simp [get_region_code, h, regionFilter]
      rw [hgr, regionPost_eq_lookup]
      simp [regionFilter]
    · intro _
      exact ⟨(a, some b, some c), by simp [split_region_name, h]⟩
    · simp [split_region_name, h]
  · have hadf : admmFilter tb (a :: b :: c :: d :: l) = none := rfl
    have hrgf : regionFilter tb (a :: b :: c :: d :: l) = none := rfl
    refine ⟨?_, ?_, ?_, ?_, ?_, ?_, ?_⟩
    · intro ha
      simp at ha
    · intro _
      exact ⟨by simp [get_admmCd, h, hadf], by simp [get_region_code, h, hrgf],
        ⟨(a, some b, some c), by simp [split_region_name, h]⟩⟩
    · intro hc
      simp only [List.length_cons] at hc
      omega
    · intro _ h3
      simp only [List.length_cons] at h3
      omega
    · intro he
      simp only [List.length_cons] at he
      omega
    · intro _
      exact ⟨(a, some b, some c), by simp [split_region_name, h]⟩
    · simp [split_region_name, h]

/-- Witness for C6 at the 4-token input against the empty table. -/
theorem c6_resolver_errors_witness :
    get_admmCd [] "가 나 다 라" = .error .valueError ∧
    get_region_code [] "가 나 다 라" = .error .valueError ∧
    ∃ t, split_region_name "가 나 다 라" = .ok t :=
  (c6_resolver_errors [] "가 나 다 라").2.1 (by decide)

/-- C6, counterexample to the claim as stated: the 1-token input "가" is
inside the supported 1-3 range, yet `real_estate_report.get_region_code`
raises ValueError on it; and the 4-token input "가 나 다 라" is outside
the range, yet `common.split_region_name` returns normally, truncating to
the first three tokens, instead of raising ValueError. -/
theorem c6_counterexample :
    get_region_code [] "가" = .error .valueError ∧
    split_region_name "가 나 다 라" = .ok ("가", some "나", some "다") := ⟨rfl, rfl⟩

theorem lexLe_lin (a b c d : Int) (hb1 : 1 ≤ b) (hb2 : b ≤ 12)
    (hd1 : 1 ≤ d) (hd2 : d ≤ 12) :
    lexLe (a, b) (c, d) ↔ linIdx a b ≤ linIdx c d := by
  simp only [lexLe, linIdx]
  omega

theorem lexLt_lin (a b c d : Int) (hb1 : 1 ≤ b) (hb2 : b ≤ 12)
    (hd1 : 1 ≤ d) (hd2 : d ≤ 12) :
    lexLt (a, b) (c, d) ↔ linIdx a b < linIdx c d := by
  simp only [lexLt, linIdx]
  omega

theorem linIdx_divmod (t : Int) : linIdx (t / 12) (t % 12 + 1) = t := by
  simp only [linIdx]
  omega

/-- The loop of split_to_quarters produces windows that tile the month
range exactly, for any fuel that exceeds the month distance. -/
theorem splitGo_covers (ye me : Int) (hme1 : 1 ≤ me) (hme2 : me ≤ 12) :
    ∀ (fuel : Nat) (cy cm : Int), 1 ≤ cm → cm ≤ 12 →
      linIdx cy cm ≤ linIdx ye me + 1 →
      linIdx ye me + 1 - linIdx cy cm ≤ (fuel : Int) →
      windowsCover (linIdx cy cm) (linIdx ye me)
        ((splitGo ye me fuel cy cm).map
          (fun w => (linIdx w.1.1 w.1.2, linIdx w.2.1 w.2.2))) := by
  intro fuel
  induction fuel with
  | zero =>
    intro cy cm h1 h2 h3 h4
    simp only [splitGo, List.map_nil, windowsCover]
    simp only [linIdx] at h3 h4 ⊢
    omega
  | succ f ih =>
    intro cy cm h1 h2 h3 h4
    by_cases hg : lexLe (cy, cm) (ye, me)
    · have hg' : linIdx cy cm ≤ linIdx ye me :=
        (lexLe_lin cy cm ye me h1 h2 hme1 hme2).mp hg
      simp only [splitGo]
      rw [if_pos hg]
      by_cases hc : lexLt (ye, me)
          ((cy * 12 + (cm - 1) + 2) / 12, (cy * 12 + (cm - 1) + 2) % 12 + 1)
      · rw [if_pos hc]
        have hcl : linIdx ye me < cy * 12 + (cm - 1) + 2 := by
          have h5 := (lexLt_lin ye me ((cy * 12 + (cm - 1) + 2) / 12)
            ((cy * 12 + (cm - 1) + 2) % 12 + 1) hme1 hme2
            (by omega) (by omega)).mp hc
          rw [linIdx_divmod] at h5
          exact h5
        simp only [List.map_cons, windowsCover]
        refine ⟨trivial, hg', ?_, le_refl _, ?_⟩
        · simp only [linIdx] at hg' hcl ⊢
          omega
        · have h5 := ih ((ye * 12 + (me - 1) + 1) / 12)
            ((ye * 12 + (me - 1) + 1) % 12 + 1)
            (by omega) (by omega)
            (by rw [linIdx_divmod]; simp only [linIdx]; omega)
            (by rw [linIdx_divmod]; simp only [linIdx]; omega)
          rw [linIdx_divmod] at h5
          exact h5
      · rw [if_neg hc]
        have hnc : ¬(linIdx ye me < cy * 12 + (cm - 1) + 2) := by
          intro hlt
          apply hc
          rw [lexLt_lin ye me ((cy * 12 + (cm - 1) + 2) / 12)
            ((cy * 12 + (cm - 1) + 2) % 12 + 1) hme1 hme2 (by omega) (by omega),
            linIdx_divmod]
          exact hlt
        simp only [List.map_cons, windowsCover, linIdx_divmod]
        refine ⟨trivial, ?_, ?_, ?_, ?_⟩
        · simp only [linIdx] at hg' ⊢
          omega
        · simp only [linIdx] at hg' ⊢
          omega
        · omega
        · have harg : ((cy * 12 + (cm - 1) + 2) / 12) * 12 +
              ((cy * 12 + (cm - 1) + 2) % 12 + 1 - 1) + 1 =
              cy * 12 + (cm - 1) + 3 := by
            omega
          rw [harg]
          have h5 := ih ((cy * 12 + (cm - 1) + 3) / 12)
            ((cy * 12 + (cm - 1) + 3) % 12 + 1)
            (by omega) (by omega)
            (by rw [linIdx_divmod]; simp only [linIdx] at hnc h3 ⊢; omega)
            (by rw [linIdx_divmod]; simp only [linIdx] at hnc h4 ⊢; omega)
          rw [linIdx_divmod] at h5
          have h6 : cy * 12 + (cm - 1) + 2 + 1 = cy * 12 + (cm - 1) + 3 := by
            omega
          rw [h6]
          exact h5
    · have hg' : ¬(linIdx cy cm ≤ linIdx ye me) := fun hle =>
        hg ((lexLe_lin cy cm ye me h1 h2 hme1 hme2).mpr hle)
      simp only [splitGo]
      rw [if_neg hg]
      simp only [List.map_nil, windowsCover]
      omega

/-- C2 (confirmed): for every start month <= end month (with valid
calendar months), `split_to_quarters` partitions the inclusive month range
into consecutive windows of at most 3 months, with no gaps and no
overlaps: the first window starts at the start month, each following
window starts right after the previous one ends, and the last window ends
exactly at the end month.  In particular for "202101" to "202107" it
returns exactly the 3 windows 202101-202103, 202104-202106 and
202107-202107, so the collection loop, which iterates once per window,
issues exactly 3 sub-requests per (level, code) pair. -/
theorem c2_quarters :
    (∀ y0 m0 ye me : Int, 1 ≤ m0 → m0 ≤ 12 → 1 ≤ me → me ≤ 12 →
      linIdx y0 m0 ≤ linIdx ye me →
      windowsCover (linIdx y0 m0) (linIdx ye me)
        ((splitGo ye me (linIdx ye me - linIdx y0 m0 + 2).toNat y0 m0).map
          (fun w => (linIdx w.1.1 w.1.2, linIdx w.2.1 w.2.2)))) ∧
    split_to_quarters "202101" "202107" =
      some [("202101", "202103"), ("202104", "202106"), ("202107", "202107")] := by
  constructor
  · intro y0 m0 ye me h1 h2 h3 h4 h5
    exact splitGo_covers ye me h3 h4 _ y0 m0 h1 h2 (by omega) (by omega)
  · rfl

/-- Witness for C2 at the range 2021-01 .. 2021-07. -/
theorem c2_quarters_witness :
    windowsCover (linIdx 2021 1) (linIdx 2021 7)
      ((splitGo 2021 7 (linIdx 2021 7 - linIdx 2021 1 + 2).toNat 2021 1).map
        (fun w => (linIdx w.1.1 w.1.2, linIdx w.2.1 w.2.2))) :=
  c2_quarters.1 2021 1 2021 7 (by norm_num) (by norm_num) (by norm_num)
    (by norm_num) (by norm_num [linIdx])
